import Mathlib

/-!
Verification of the serpshot Python client library.

This file gives a shallow embedding of the client's core logic — the HTTP
retry loop and response-envelope unwrapping of `serpshot/_http.py`, the
search-response normalization of `serpshot/_base.py`, the location
validator of `serpshot/models.py`, and the API-key resolution of
`serpshot/_base.py` — and proves the behavioural properties stated in the
project documentation about them.

Conventions of the embedding:
* JSON values are the inductive `Json`; Python `None` is `Json.null`.
* Python code that can raise returns `Except PyErr α`; each `PyErr`
  constructor stands for one exception class the embedded code can raise.
* Machine-level concerns (actual sockets, sleeping, logging) are abstracted:
  the transport is a function from attempt index to outcome, and backoff
  sleeps are recorded as a list of the waited seconds.
-/


/-- JSON values exchanged with the backend.  Python `None` is `null`. -/
inductive Json where
  | null
  | str (s : String)
  | int (n : Int)
  | bool (b : Bool)
  | arr (xs : List Json)
  | obj (fields : List (String × Json))

/-- Key lookup in the field list of a JSON object (Python `dict` lookup;
objects are assumed to have distinct keys, so the first match is taken). -/
def jlookup : List (String × Json) → String → Option Json
  | [], _ => none
  | (k, v) :: rest, key => if k = key then some v else jlookup rest key

/-- Python `d.get(k)`: `some` when `d` is an object containing the key. -/
def Json.get : Json → String → Option Json
  | .obj fs, k => jlookup fs k
  | _, _ => none

/-- Python `d.get(k, default)` where `d` is known to be a dict. -/
def Json.getD (j : Json) (k : String) (dflt : Json) : Json := (j.get k).getD dflt

/-- Whether a JSON value is an object (Python `isinstance(x, dict)`). -/
def Json.isObj : Json → Bool
  | .obj _ => true
  | _ => false

/-- The Python exceptions the embedded code can raise.  `networkError`,
`rateLimitError` and `apiError` are the serpshot exception classes
(`NetworkError` carries its `original_error` cause, `RateLimitError` its
`retry_after`, `APIError` its message, status code and response body);
`httpxTimeout` / `httpxNetworkError` are the transport-library exceptions;
`unexpectedError tag` stands for an arbitrary unexpected exception
identified by a tag; the remaining constructors model built-in Python /
pydantic errors raised at specific places of the code. -/
inductive PyErr where
  | httpxTimeout
  | httpxNetworkError (msg : String)
  | networkError (msg : String) (cause : Option PyErr)
  | rateLimitError (msg : String) (retryAfter : Int)
  | apiError (msg : Json) (statusCode : Json) (responseData : Json)
  | unexpectedError (tag : Nat)
  | jsonDecodeError
  | validationError
  | attributeError
  | indexError
  | valueError (msg : String)

/-- An HTTP response as `_parse_response` sees it: the status code, the
integer value of the `Retry-After` header when that header is present, and
the JSON body (`none` models empty `response.content`; non-JSON bodies are
out of scope). -/
structure HttpResponse where
  status : Nat
  retryAfterHeader : Option Int
  body : Option Json

/-- Python `x == 200` for the envelope `code` value looked up with
`json_data.get("code")` (absent key gives `None`, which is not `200`). -/
def isInt200 : Option Json → Bool
  | some (Json.int n) => n == 200
  | _ => false

/-- `_parse_response` of `serpshot/_http.py` (lines 17-60): raise
`RateLimitError` on 429, `APIError` on other statuses ≥ 400, then unwrap
the `{code, msg, data}` envelope.  The source raises when
`json_data.get("code") != 200`; here the branches are written with the
equivalent positive test `isInt200`. -/
def parse_response (response : HttpResponse) : Except PyErr Json :=
  if response.status = 429 then
    let retryAfter := response.retryAfterHeader.getD 60
    Except.error (PyErr.rateLimitError
      ("Rate limit exceeded. Retry after " ++ toString retryAfter ++ " seconds") retryAfter)
  else if 400 ≤ response.status then
    let errorData := response.body.getD (Json.obj [])
    match errorData with
    | Json.obj fs =>
        Except.error (PyErr.apiError
          ((jlookup fs "error").getD (Json.str ("HTTP " ++ toString response.status)))
          (Json.int (response.status : Int)) errorData)
    | _ => Except.error PyErr.attributeError
  else
    match response.body with
    | none => Except.error PyErr.jsonDecodeError
    | some jsonData =>
      match jsonData with
      | Json.obj fs =>
        match jlookup fs "data" with
        | some dataVal =>
          if isInt200 (jlookup fs "code") then Except.ok dataVal
          else
            Except.error (PyErr.apiError
              ((jlookup fs "msg").getD (Json.str "API returned error"))
              ((jlookup fs "code").getD (Json.int 500)) jsonData)
        | none => Except.ok jsonData
      | j => Except.ok j

/-- Outcome of one transport attempt (`client.request(method, path, ...)`):
a received HTTP response, an `httpx.TimeoutException`, an
`httpx.NetworkError`, or an arbitrary unexpected exception. -/
inductive TransportOutcome where
  | response (r : HttpResponse)
  | timeout
  | netErr (msg : String)
  | unexpected (tag : Nat)

/-- Whether the outcome is one of the two transport-level failures that the
retry loop retries on. -/
def TransportOutcome.isTransportFailure : TransportOutcome → Bool
  | .timeout => true
  | .netErr _ => true
  | _ => false

/-- The `NetworkError` built in the `except httpx.TimeoutException` clause. -/
def timeoutError (timeoutSecs : String) : PyErr :=
  PyErr.networkError ("Request timeout after " ++ timeoutSecs ++ "s") (some PyErr.httpxTimeout)

/-- The `NetworkError` built in the `except httpx.NetworkError` clause. -/
def networkFailureError (m : String) : PyErr :=
  PyErr.networkError ("Network error: " ++ m) (some (PyErr.httpxNetworkError m))

/-- The `last_error` recorded for a transport-failure outcome. -/
def transportFailureError (timeoutSecs : String) : TransportOutcome → PyErr
  | .netErr m => networkFailureError m
  | _ => timeoutError timeoutSecs

/-- The raise performed after the loop exits without returning
(`_http.py` lines 164-167): re-raise `last_error` when it is a
`NetworkError`, otherwise wrap it. -/
def finalRaise (maxRetries : Nat) (lastError : Option PyErr) : PyErr :=
  match lastError with
  | some (PyErr.networkError m c) => PyErr.networkError m c
  | le => PyErr.networkError ("Request failed after " ++ toString maxRetries ++ " attempts") le

/-- Observable result of one call to `HTTPClient.request`: the returned
value or raised exception, how many attempts were executed, and the backoff
sleeps performed, in order and in seconds. -/
structure RunResult where
  result : Except PyErr Json
  attempts : Nat
  waits : List Nat

/-- The body of the retry loop of `HTTPClient.request` (`_http.py` lines
136-167), with `rem` the remaining iterations of `range(max_retries)`,
`idx` the current attempt index, `lastError` the `last_error` slot, and
`waitsRev` the sleeps performed so far (most recent first).  A transport
failure records `last_error` and, when `idx < maxRetries - 1`, sleeps
`2 ^ idx` seconds; `RateLimitError` / `APIError` from `_parse_response`
are re-raised; any unexpected exception breaks out of the loop. -/
def requestGo (maxRetries : Nat) (timeoutSecs : String) (outcome : Nat → TransportOutcome) :
    Nat → Nat → Option PyErr → List Nat → RunResult
  | 0, idx, lastError, waitsRev =>
    ⟨Except.error (finalRaise maxRetries lastError), idx, waitsRev.reverse⟩
  | rem + 1, idx, _lastError, waitsRev =>
    match outcome idx with
    | .response r =>
      match parse_response r with
      | .ok v => ⟨Except.ok v, idx + 1, waitsRev.reverse⟩
      | .error e => ⟨Except.error e, idx + 1, waitsRev.reverse⟩
    | .timeout =>
      requestGo maxRetries timeoutSecs outcome rem (idx + 1) (some (timeoutError timeoutSecs))
        (if idx < maxRetries - 1 then 2 ^ idx :: waitsRev else waitsRev)
    | .netErr m =>
      requestGo maxRetries timeoutSecs outcome rem (idx + 1) (some (networkFailureError m))
        (if idx < maxRetries - 1 then 2 ^ idx :: waitsRev else waitsRev)
    | .unexpected tag =>
      ⟨Except.error (finalRaise maxRetries (some (PyErr.unexpectedError tag))), idx + 1,
        waitsRev.reverse⟩

/-- `HTTPClient.request` of `serpshot/_http.py` (the async variant's loop is
line-for-line identical): run at most `maxRetries` attempts against the
given transport. -/
def HTTPClient.request (maxRetries : Nat) (timeoutSecs : String)
    (outcome : Nat → TransportOutcome) : RunResult :=
  requestGo maxRetries timeoutSecs outcome maxRetries 0 none []

/-- The reversed wait list accumulated while attempts `idx`, `idx + 1`, ...,
`idx + n - 1` all fail with transport failures strictly before the last
allowed attempt. -/
def failWaits : Nat → Nat → List Nat
  | _, 0 => []
  | idx, n + 1 => failWaits (idx + 1) n ++ [2 ^ idx]

/-- Transport used in the success half of the retry-policy witness: two
timeouts, then a plain JSON response. -/
def retryOutcomeA : Nat → TransportOutcome := fun i =>
  if i = 2 then TransportOutcome.response ⟨200, none, some (Json.obj [("ok", Json.int 1)])⟩
  else TransportOutcome.timeout

/-- Transport used in the exhaustion half of the retry-policy witness. -/
def retryOutcomeB : Nat → TransportOutcome := fun _ => TransportOutcome.netErr "boom"

/-- Transport answering 429 with a `Retry-After: 7` header. -/
def rateLimitOutcome : Nat → TransportOutcome :=
  fun _ => TransportOutcome.response ⟨429, some 7, none⟩

/-- Transport whose very first attempt raises an unexpected exception. -/
def unexpectedOutcome : Nat → TransportOutcome := fun _ => TransportOutcome.unexpected 7

/-- Transport for the C6-amended witness: one timeout, then an unexpected
exception (tag 9). -/
def unexpectedAfterTimeout : Nat → TransportOutcome := fun i =>
  if i = 0 then TransportOutcome.timeout else TransportOutcome.unexpected 9

/-- A 200 response whose body is an envelope with a `data` key but no
`code` key. -/
def envelopeNoCode : HttpResponse := ⟨200, none, some (Json.obj [("data", Json.int 42)])⟩

/-- `models.SearchResult`: one organic result (all fields required). -/
structure SearchResult where
  title : String
  link : String
  snippet : String
  position : Int
deriving DecidableEq

/-- `models.ImageResult`: one image result (all fields required). -/
structure ImageResult where
  title : String
  link : String
  thumbnail : String
  source : String
  source_link : String
  width : Int
  height : Int
  position : Int
deriving DecidableEq

/-- The validated `results` field of a `SearchResponse`:
`list[SearchResult] | list[ImageResult]`, tried left to right. -/
inductive Results where
  | organic (items : List SearchResult)
  | image (items : List ImageResult)
deriving DecidableEq

/-- `models.SearchResponse` after pydantic validation. -/
structure SearchResponse where
  success : Bool
  query : String
  total_results : String
  search_time : String
  results : Results
  credits_used : Int
deriving DecidableEq

/-- A JSON value accepted by a pydantic `str` field (no coercions). -/
def asStr : Json → Option String
  | Json.str s => some s
  | _ => none

/-- A JSON value accepted by a pydantic `int` field (no coercions). -/
def asInt : Json → Option Int
  | Json.int n => some n
  | _ => none

/-- Required `str` field of a validated item. -/
def jgetStr (j : Json) (k : String) : Option String := (j.get k).bind asStr

/-- Required `int` field of a validated item. -/
def jgetInt (j : Json) (k : String) : Option Int := (j.get k).bind asInt

/-- pydantic validation of one `SearchResult` item (the four declared
fields are required; extra keys are ignored). -/
def validate_search_result (j : Json) : Option SearchResult :=
  match jgetStr j "title", jgetStr j "link", jgetStr j "snippet", jgetInt j "position" with
  | some t, some l, some s, some p => some ⟨t, l, s, p⟩
  | _, _, _, _ => none

/-- pydantic validation of one `ImageResult` item. -/
def validate_image_result (j : Json) : Option ImageResult :=
  match jgetStr j "title", jgetStr j "link", jgetStr j "thumbnail", jgetStr j "source",
      jgetStr j "source_link", jgetInt j "width", jgetInt j "height",
      jgetInt j "position" with
  | some t, some l, some th, some s, some sl, some w, some h, some p =>
      some ⟨t, l, th, s, sl, w, h, p⟩
  | _, _, _, _, _, _, _, _ => none

/-- Validate every element of a list, failing when any element fails
(pydantic list validation). -/
def mapO {α β : Type} (f : α → Option β) : List α → Option (List β)
  | [] => some []
  | a :: l =>
    match f a with
    | none => none
    | some b =>
      match mapO f l with
      | none => none
      | some bs => some (b :: bs)

/-- Python list comprehension over a fallible element computation:
left-to-right, propagating the first raised exception. -/
def mapE {α β : Type} (f : α → Except PyErr β) : List α → Except PyErr (List β)
  | [] => Except.ok []
  | a :: l =>
    match f a with
    | Except.error e => Except.error e
    | Except.ok b =>
      match mapE f l with
      | Except.error e => Except.error e
      | Except.ok bs => Except.ok (b :: bs)

/-- pydantic validation of the union field
`results: list[SearchResult] | list[ImageResult]` on a JSON value. -/
def validate_results (j : Json) : Option Results :=
  match j with
  | Json.arr items =>
    match mapO validate_search_result items with
    | some rs => some (Results.organic rs)
    | none =>
      match mapO validate_image_result items with
      | some rs => some (Results.image rs)
      | none => none
  | _ => none

/-- `SearchResponse.model_validate` applied to the `response_data` dict
built at `_base.py` lines 148-159: `success` is the literal `True`; the
remaining values are arbitrary JSON and must fit the declared field types,
otherwise pydantic raises a ValidationError. -/
def model_validate (success : Bool) (query totalResults searchTime : Json)
    (results : Json) (credits : Json) : Except PyErr SearchResponse :=
  match asStr query, asStr totalResults, asStr searchTime, validate_results results,
      asInt credits with
  | some q, some tr, some st, some rs, some c => Except.ok ⟨success, q, tr, st, rs, c⟩
  | _, _, _, _, _ => Except.error PyErr.validationError

/-- `BaseClient._transform_image_result` (`_base.py` lines 69-94): remap
backend image fields to the client schema (`imageUrl`→`link`,
`link`→`source_link`, `thumbnailUrl`→`thumbnail`, `imageWidth`→`width`,
`imageHeight`→`height`), defaulting missing fields to "" / 0.  Python's
`result.get` raises AttributeError when the item is not a dict. -/
def transform_image_result (result : Json) : Except PyErr Json :=
  match result with
  | Json.obj fs => Except.ok (Json.obj
      [("title", (jlookup fs "title").getD (Json.str "")),
       ("link", (jlookup fs "imageUrl").getD (Json.str "")),
       ("thumbnail", (jlookup fs "thumbnailUrl").getD (Json.str "")),
       ("source", (jlookup fs "source").getD (Json.str "")),
       ("source_link", (jlookup fs "link").getD (Json.str "")),
       ("width", (jlookup fs "imageWidth").getD (Json.int 0)),
       ("height", (jlookup fs "imageHeight").getD (Json.int 0)),
       ("position", (jlookup fs "position").getD (Json.int 0))])
  | _ => Except.error PyErr.attributeError

/-- Python `x.get(k, default)`: dict lookup with default; AttributeError
when `x` is not a dict. -/
def pyDictGet (j : Json) (k : String) (dflt : Json) : Except PyErr Json :=
  match j with
  | Json.obj fs => Except.ok ((jlookup fs k).getD dflt)
  | _ => Except.error PyErr.attributeError

/-- Python `x.get(k, default) if isinstance(x, dict) else default`
(total, used where the source guards with `isinstance(data, dict)`). -/
def dictGetOr (data : Json) (k : String) (dflt : Json) : Json :=
  match data with
  | Json.obj fs => (jlookup fs k).getD dflt
  | _ => dflt

/-- The empty `SearchResponse` built for `None` / empty-list data
(`_base.py` lines 111-132). -/
def emptySearchResponse (query : String) : SearchResponse :=
  ⟨true, query, "0", "0", Results.organic [], 0⟩

/-- The main branch of `BaseClient._parse_search_response` (`_base.py`
lines 135-161) on a single payload value: extract `search_info`, `results`
and `search_params.type` (with the source's `isinstance(data, dict)`
guards), remap results when the type is `"image"`, then build and validate
the response dict.  Exceptions are produced exactly where the Python would
raise (AttributeError on `.get` of a non-dict, iteration of a non-list
results value under the image branch, pydantic ValidationError), in source
evaluation order. -/
def parse_search_payload (data : Json) (query : String) : Except PyErr SearchResponse :=
  let searchInfo := dictGetOr data "search_info" (Json.obj [])
  let resultsJ := dictGetOr data "results" (Json.arr [])
  match (if data.isObj then
      pyDictGet (dictGetOr data "search_params" (Json.obj [])) "type" (Json.str "search")
    else Except.ok (Json.str "search")) with
  | Except.error e => Except.error e
  | Except.ok searchType =>
    match (match searchType with
      | Json.str "image" =>
        match resultsJ with
        | Json.arr xs =>
          match mapE transform_image_result xs with
          | Except.error e => Except.error e
          | Except.ok ts => Except.ok (Json.arr ts)
        | _ => Except.error PyErr.attributeError
      | _ => Except.ok resultsJ) with
    | Except.error e => Except.error e
    | Except.ok finalResults =>
      match (if data.isObj then
          pyDictGet (dictGetOr data "search_params" (Json.obj [])) "q" (Json.str query)
        else Except.ok (Json.str query)) with
      | Except.error e => Except.error e
      | Except.ok q =>
        match pyDictGet searchInfo "total_results" (Json.str "0") with
        | Except.error e => Except.error e
        | Except.ok totalResults =>
          match pyDictGet searchInfo "search_time" (Json.str "0") with
          | Except.error e => Except.error e
          | Except.ok searchTime =>
            model_validate true q totalResults searchTime finalResults
              (dictGetOr data "credits" (Json.int 0))

/-- `BaseClient._parse_search_response` (`_base.py` lines 96-161): `None`
and `[]` give an empty response, a non-empty list is replaced by its first
element, then the payload branch runs. -/
def parse_search_response (data : Json) (query : String) : Except PyErr SearchResponse :=
  match data with
  | Json.null => Except.ok (emptySearchResponse query)
  | Json.arr [] => Except.ok (emptySearchResponse query)
  | Json.arr (d :: _) => parse_search_payload d query
  | d => parse_search_payload d query

/-- The `query` argument of `_process_search_response`: a single string
(`isinstance(query, str)`) or a list of strings. -/
inductive QueryArg where
  | str (q : String)
  | list (qs : List String)

/-- The return shape of `_process_search_response`: one response for a
string query, a list for a batch query. -/
inductive SearchOutcome where
  | single (r : SearchResponse)
  | batch (rs : List SearchResponse)

/-- The coercion `if not isinstance(data, list): data = [data]`
(`_base.py` lines 228-229). -/
def coerceToList (data : Json) : List Json :=
  match data with
  | Json.arr xs => xs
  | d => [d]

/-- `BaseClient._process_search_response` (`_base.py` lines 213-261) after
the list coercion: empty data yields empty responses; otherwise backend
items are paired with queries positionally (`zip(data, queries[:len(data)])`),
the remainder is padded with empty responses, and the arity of the original
query decides the output shape (`responses[0]` for a string query). -/
def process_search_core (dataList : List Json) (query : QueryArg) :
    Except PyErr SearchOutcome :=
  if dataList.isEmpty then
    match query with
    | QueryArg.str q =>
      match parse_search_response Json.null q with
      | Except.error e => Except.error e
      | Except.ok r => Except.ok (SearchOutcome.single r)
    | QueryArg.list qs =>
      match mapE (fun q => parse_search_response Json.null q) qs with
      | Except.error e => Except.error e
      | Except.ok rs => Except.ok (SearchOutcome.batch rs)
  else
    let queries := match query with
      | QueryArg.str q => [q]
      | QueryArg.list qs => qs
    match mapE (fun p => parse_search_response p.1 p.2)
        (dataList.zip (queries.take dataList.length)) with
    | Except.error e => Except.error e
    | Except.ok responses =>
      match (if responses.length < queries.length then
          match mapE (fun q => parse_search_response Json.null q)
              (queries.drop responses.length) with
          | Except.error e => Except.error e
          | Except.ok extra => Except.ok (responses ++ extra)
        else Except.ok responses) with
      | Except.error e => Except.error e
      | Except.ok padded =>
        match query with
        | QueryArg.str _ =>
          match padded with
          | r :: _ => Except.ok (SearchOutcome.single r)
          | [] => Except.error PyErr.indexError
        | QueryArg.list _ => Except.ok (SearchOutcome.batch padded)

/-- `BaseClient._process_search_response` including the initial coercion of
non-list data to a one-element list. -/
def process_search_response (data : Json) (query : QueryArg) :
    Except PyErr SearchOutcome :=
  process_search_core (coerceToList data) query

/-- Whether `_parse_search_response` succeeds on an item (no pydantic
validation failure and no malformed-payload exception). -/
def parseOk (item : Json) (q : String) : Bool :=
  match parse_search_response item q with
  | Except.ok _ => true
  | Except.error _ => false

/-- The backend items actually present in a response: none for `null`, the
elements for a list, and the value itself for a scalar object. -/
def backendItems (data : Json) : List Json :=
  match data with
  | Json.null => []
  | Json.arr xs => xs
  | d => [d]

/-- Backend response for the C1 witness: two items (a well-formed scalar
payload and a `null`) for three queries. -/
def batchWitnessData : Json :=
  Json.arr [Json.obj [("credits", Json.int 3)], Json.null]

/-- The string the image remap effectively stores for a backend field:
the field's string value when present, "" when the key is absent. -/
def jStrD (j : Json) (k : String) : String :=
  match j.get k with
  | some (Json.str s) => s
  | _ => ""

/-- The integer the image remap effectively stores for a backend field:
the field's integer value when present, 0 when the key is absent. -/
def jIntD (j : Json) (k : String) : Int :=
  match j.get k with
  | some (Json.int n) => n
  | _ => 0

/-- Default element used for indexing into validated image results. -/
def imgDefault : ImageResult := ⟨"", "", "", "", "", 0, 0, 0⟩

/-- A backend image item with a missing `thumbnailUrl` and `source`. -/
def imageWitnessItem : Json := Json.obj
  [("title", Json.str "I"), ("imageUrl", Json.str "IMG"), ("link", Json.str "PAGE"),
   ("imageWidth", Json.int 100), ("imageHeight", Json.int 50)]

/-- An image-typed payload containing `imageWitnessItem`. -/
def imageWitnessFields : List (String × Json) :=
  [("results", Json.arr [imageWitnessItem]),
   ("search_params", Json.obj [("type", Json.str "image"), ("q", Json.str "cats")])]

/-- The response the client builds for `imageWitnessFields`. -/
def imageWitnessResp : SearchResponse :=
  ⟨true, "cats", "0", "0", Results.image [⟨"I", "IMG", "", "", "PAGE", 100, 50, 0⟩], 0⟩

/-- `types.LocationType`: the location codes known to the SDK. -/
inductive LocationType where
  | US | IN | JP | BR | GB | DE | CA | FR | ID | MX | SG | IR
deriving DecidableEq

/-- The wire value of each `LocationType` member. -/
def LocationType.value : LocationType → String
  | .US => "US" | .IN => "IN" | .JP => "JP" | .BR => "BR" | .GB => "GB" | .DE => "DE"
  | .CA => "CA" | .FR => "FR" | .ID => "ID" | .MX => "MX" | .SG => "SG" | .IR => "IR"

/-- The enum constructor `LocationType(s)`: the member whose value equals
`s`, or `none` where Python raises ValueError. -/
def locationTypeOf (s : String) : Option LocationType :=
  if s = "US" then some .US else if s = "IN" then some .IN else if s = "JP" then some .JP
  else if s = "BR" then some .BR else if s = "GB" then some .GB else if s = "DE" then some .DE
  else if s = "CA" then some .CA else if s = "FR" then some .FR else if s = "ID" then some .ID
  else if s = "MX" then some .MX else if s = "SG" then some .SG else if s = "IR" then some .IR
  else none

/-- The `location` value handed to the validator: `None`, a
`LocationType` member, or an arbitrary string. -/
inductive LocationInput where
  | none
  | enum (l : LocationType)
  | str (s : String)

/-- The validator's result: `None`, a canonical enum member, or a
passed-through custom string. -/
inductive LocationValue where
  | none
  | enum (l : LocationType)
  | str (s : String)
deriving DecidableEq

/-- Python `str.upper()` on the ASCII strings the validator sees. -/
def pyUpper (s : String) : String := String.mk (s.data.map Char.toUpper)

/-- `SearchRequest.validate_location` (`models.py` lines 34-53): `None` and
enum members pass through; a string is uppercased and converted to the
enum when it matches a known code, and passed through uppercased otherwise
(the ValueError from the enum constructor is caught, so the validator
itself never raises). -/
def validate_location : LocationInput → LocationValue
  | .none => .none
  | .enum l => .enum l
  | .str s =>
    match locationTypeOf (pyUpper s) with
    | some l => .enum l
    | Option.none => .str (pyUpper s)

/-- Python truthiness of an `Optional[str]`: `None` and the empty string
are falsy. -/
def optTruthy : Option String → Bool
  | some s => !s.isEmpty
  | none => false

/-- The error message of the ValueError raised by `_get_api_key` (the
source quotes api_key; the quotes are elided here). -/
def apiKeyErrorMsg : String :=
  "API key is required. Either provide it as api_key parameter " ++
    "or set the SERPSHOT_API_KEY environment variable."

/-- `BaseClient._get_api_key` (`_base.py` lines 21-44) with the value of
`os.getenv("SERPSHOT_API_KEY")` passed explicitly: return the argument
when truthy, else the environment value when truthy, else raise
ValueError. -/
def get_api_key (apiKey : Option String) (envValue : Option String) :
    Except PyErr String :=
  if optTruthy apiKey then Except.ok (apiKey.getD "")
  else if optTruthy envValue then Except.ok (envValue.getD "")
  else Except.error (PyErr.valueError apiKeyErrorMsg)

lemma requestGo_zero (mr : Nat) (ts : String) (o : Nat → TransportOutcome) (idx : Nat)
    (le : Option PyErr) (wr : List Nat) :
    requestGo mr ts o 0 idx le wr = ⟨Except.error (finalRaise mr le), idx, wr.reverse⟩ := rfl

lemma requestGo_succ (mr : Nat) (ts : String) (o : Nat → TransportOutcome) (rem idx : Nat)
    (le : Option PyErr) (wr : List Nat) :
    requestGo mr ts o (rem + 1) idx le wr =
      match o idx with
      | .response r =>
        match parse_response r with
        | .ok v => ⟨Except.ok v, idx + 1, wr.reverse⟩
        | .error e => ⟨Except.error e, idx + 1, wr.reverse⟩
      | .timeout =>
        requestGo mr ts o rem (idx + 1) (some (timeoutError ts))
          (if idx < mr - 1 then 2 ^ idx :: wr else wr)
      | .netErr m =>
        requestGo mr ts o rem (idx + 1) (some (networkFailureError m))
          (if idx < mr - 1 then 2 ^ idx :: wr else wr)
      | .unexpected tag =>
        ⟨Except.error (finalRaise mr (some (PyErr.unexpectedError tag))), idx + 1,
          wr.reverse⟩ := rfl

lemma isTransportFailure_cases (o : TransportOutcome) (h : o.isTransportFailure = true) :
    o = TransportOutcome.timeout ∨ ∃ m, o = TransportOutcome.netErr m := by
  cases o with
  | timeout => exact Or.inl rfl
  | netErr m => exact Or.inr ⟨m, rfl⟩
  | response r => exact absurd h (by simp [TransportOutcome.isTransportFailure])
  | unexpected t => exact absurd h (by simp [TransportOutcome.isTransportFailure])

lemma failWaits_reverse (idx n : Nat) :
    (failWaits idx n).reverse = (List.range n).map (fun j => 2 ^ (idx + j)) := by
  induction n generalizing idx with
  | zero => simp [failWaits]
  | succ n ih =>
    rw [failWaits, List.reverse_append, List.range_succ_eq_map]
    simp only [List.reverse_cons, List.reverse_nil, List.nil_append, List.map_cons,
      List.map_map, List.singleton_append, ih]
    refine congrArg₂ _ (by simp) ?_
    refine List.map_congr_left ?_
    intro j _
    simp only [Function.comp]
    congr 1
    omega

/-- One loop iteration on a transport-failure outcome records the
corresponding `last_error` and performs the conditional backoff. -/
lemma requestGo_succ_failure (mr : Nat) (ts : String) (o : Nat → TransportOutcome)
    (rem idx : Nat) (le : Option PyErr) (wr : List Nat)
    (h : (o idx).isTransportFailure = true) :
    requestGo mr ts o (rem + 1) idx le wr =
      requestGo mr ts o rem (idx + 1) (some (transportFailureError ts (o idx)))
        (if idx < mr - 1 then 2 ^ idx :: wr else wr) := by
  rcases isTransportFailure_cases _ h with h' | ⟨m, h'⟩ <;>
    rw [requestGo_succ] <;> simp only [h', transportFailureError]

/-- Running the loop over a block of `n` consecutive transport failures at
attempts `idx`, ..., `idx + n - 1` (all strictly before the last allowed
attempt) records the corresponding `last_error` and backoff waits. -/
lemma requestGo_skip (outcome : Nat → TransportOutcome) (ts : String) (maxRetries : Nat) :
    ∀ (n idx : Nat) (le : Option PyErr) (wr : List Nat),
      idx + n < maxRetries →
      (∀ j, j < n → (outcome (idx + j)).isTransportFailure = true) →
      requestGo maxRetries ts outcome (maxRetries - idx) idx le wr =
        requestGo maxRetries ts outcome (maxRetries - (idx + n)) (idx + n)
          (if n = 0 then le else some (transportFailureError ts (outcome (idx + n - 1))))
          (failWaits idx n ++ wr) := by
  intro n
  induction n with
  | zero => intro idx le wr _ _; simp [failWaits]
  | succ n ih =>
    intro idx le wr hlt hf
    obtain ⟨k, hk⟩ : ∃ k, maxRetries - idx = k + 1 := ⟨maxRetries - idx - 1, by omega⟩
    have hk' : maxRetries - (idx + 1) = k := by omega
    have h0 : (outcome idx).isTransportFailure = true := by
      have := hf 0 (by omega); simpa using this
    have hwait : idx < maxRetries - 1 := by omega
    have hfshift : ∀ j, j < n → (outcome (idx + 1 + j)).isTransportFailure = true := by
      intro j hj
      have e : idx + 1 + j = idx + (j + 1) := by omega
      rw [e]
      exact hf (j + 1) (by omega)
    rw [hk, requestGo_succ_failure maxRetries ts outcome k idx le wr h0, if_pos hwait,
      ← hk', ih (idx + 1) (some (transportFailureError ts (outcome idx))) (2 ^ idx :: wr)
        (by omega) hfshift]
    have e1 : idx + 1 + n = idx + (n + 1) := by omega
    rw [e1]
    have e2 : (if n = 0 then some (transportFailureError ts (outcome idx))
          else some (transportFailureError ts (outcome (idx + (n + 1) - 1)))) =
        (if n + 1 = 0 then le
          else some (transportFailureError ts (outcome (idx + (n + 1) - 1)))) := by
      rcases Nat.eq_zero_or_pos n with hn | hn
      · subst hn; simp
      · rw [if_neg (by omega), if_neg (by omega)]
    rw [e2]
    have e3 : failWaits (idx + 1) n ++ 2 ^ idx :: wr = failWaits idx (n + 1) ++ wr := by
      simp [failWaits, List.append_assoc]
    rw [e3]

/-- C4: with `max_retries = 3`, a transport that fails on the first two
attempts (timeout or connection error) and yields a successfully parsed
response on the third makes the request return that result with no error
and backoff waits of 1s then 2s; a transport that fails on every attempt
makes the request raise a NetworkError after exactly 3 attempts, again
with waits of 1s after the first failed attempt and 2s after the second
and none after the last. -/
theorem retry_policy (outcome : Nat → TransportOutcome) (ts : String) :
    (∀ r v, (outcome 0).isTransportFailure = true → (outcome 1).isTransportFailure = true →
      outcome 2 = TransportOutcome.response r → parse_response r = Except.ok v →
      HTTPClient.request 3 ts outcome = ⟨Except.ok v, 3, [1, 2]⟩) ∧
    ((∀ i, i < 3 → (outcome i).isTransportFailure = true) →
      ∃ m c, HTTPClient.request 3 ts outcome =
        ⟨Except.error (PyErr.networkError m c), 3, [1, 2]⟩) := by
  constructor
  · intro r v h0 h1 h2 hp
    rcases isTransportFailure_cases _ h0 with h0' | ⟨m0, h0'⟩ <;>
      rcases isTransportFailure_cases _ h1 with h1' | ⟨m1, h1'⟩ <;>
      simp [HTTPClient.request, requestGo, h0', h1', h2, hp]
  · intro hall
    have h0 := hall 0 (by omega)
    have h1 := hall 1 (by omega)
    have h2 := hall 2 (by omega)
    rcases isTransportFailure_cases _ h2 with h2' | ⟨m2, h2'⟩
    · refine ⟨"Request timeout after " ++ ts ++ "s", some PyErr.httpxTimeout, ?_⟩
      rcases isTransportFailure_cases _ h0 with h0' | ⟨m0, h0'⟩ <;>
        rcases isTransportFailure_cases _ h1 with h1' | ⟨m1, h1'⟩ <;>
        simp [HTTPClient.request, requestGo, h0', h1', h2', finalRaise, timeoutError,
          networkFailureError]
    · refine ⟨"Network error: " ++ m2, some (PyErr.httpxNetworkError m2), ?_⟩
      rcases isTransportFailure_cases _ h0 with h0' | ⟨m0, h0'⟩ <;>
        rcases isTransportFailure_cases _ h1 with h1' | ⟨m1, h1'⟩ <;>
        simp [HTTPClient.request, requestGo, h0', h1', h2', finalRaise, timeoutError,
          networkFailureError]

theorem retry_policy_witness :
    HTTPClient.request 3 "30.0" retryOutcomeA =
      ⟨Except.ok (Json.obj [("ok", Json.int 1)]), 3, [1, 2]⟩ ∧
    ∃ m c, HTTPClient.request 3 "30.0" retryOutcomeB =
      ⟨Except.error (PyErr.networkError m c), 3, [1, 2]⟩ :=
  ⟨(retry_policy retryOutcomeA "30.0").1 ⟨200, none, some (Json.obj [("ok", Json.int 1)])⟩
      (Json.obj [("ok", Json.int 1)]) rfl rfl rfl rfl,
    (retry_policy retryOutcomeB "30.0").2 (by decide)⟩

/-- C5: a 429 response on the first attempt raises RateLimitError at once —
one attempt, no backoff — whose `retry_after` is the `Retry-After` header
value, or 60 when the header is absent. -/
theorem rate_limit_immediate (r : HttpResponse) (outcome : Nat → TransportOutcome)
    (maxRetries : Nat) (ts : String)
    (hmr : 1 ≤ maxRetries) (h0 : outcome 0 = TransportOutcome.response r)
    (h429 : r.status = 429) :
    HTTPClient.request maxRetries ts outcome =
      ⟨Except.error (PyErr.rateLimitError
          ("Rate limit exceeded. Retry after " ++ toString (r.retryAfterHeader.getD 60) ++
            " seconds")
          (r.retryAfterHeader.getD 60)), 1, []⟩ := by
  obtain ⟨k, rfl⟩ : ∃ k, maxRetries = k + 1 := ⟨maxRetries - 1, by omega⟩
  rw [HTTPClient.request, requestGo_succ, h0]
  simp [parse_response, h429]

theorem rate_limit_immediate_witness :
    HTTPClient.request 3 "30.0" rateLimitOutcome =
      ⟨Except.error (PyErr.rateLimitError
          ("Rate limit exceeded. Retry after " ++
            toString (((⟨429, some 7, none⟩ : HttpResponse).retryAfterHeader).getD 60) ++
            " seconds")
          (((⟨429, some 7, none⟩ : HttpResponse).retryAfterHeader).getD 60)), 1, []⟩ :=
  rate_limit_immediate ⟨429, some 7, none⟩ rateLimitOutcome 3 "30.0" (by omega) rfl rfl

/-- C6 counterexample: with `max_retries = 3`, an unexpected exception (tag
7) on the first attempt does stop the loop at once — one attempt, no
backoff — but what reaches the caller is a NetworkError wrapping that
exception ("Request failed after 3 attempts"), not the exception itself. -/
theorem unexpected_not_reraised :
    HTTPClient.request 3 "30.0" unexpectedOutcome =
      ⟨Except.error (PyErr.networkError
          ("Request failed after " ++ toString (3 : Nat) ++ " attempts")
          (some (PyErr.unexpectedError 7))), 1, []⟩ ∧
    (HTTPClient.request 3 "30.0" unexpectedOutcome).result ≠
      Except.error (PyErr.unexpectedError 7) := by
  refine ⟨rfl, ?_⟩
  intro h
  rw [show HTTPClient.request 3 "30.0" unexpectedOutcome =
      ⟨Except.error (PyErr.networkError
          ("Request failed after " ++ toString (3 : Nat) ++ " attempts")
          (some (PyErr.unexpectedError 7))), 1, []⟩ from rfl] at h
  injection h with h2
  exact PyErr.noConfusion h2

/-- C6 amended: when attempt `n` of the loop fails with an unexpected
exception, after `n` transport-level failures, the loop stops immediately —
`n + 1` attempts total, and no backoff wait after the unexpected failure —
and a NetworkError wrapping that exception (message "Request failed after
max_retries attempts") is raised, rather than the exception itself. -/
theorem unexpected_breaks_loop (outcome : Nat → TransportOutcome) (ts : String)
    (maxRetries n tag : Nat) (hn : n < maxRetries)
    (hpre : ∀ j, j < n → (outcome j).isTransportFailure = true)
    (hu : outcome n = TransportOutcome.unexpected tag) :
    HTTPClient.request maxRetries ts outcome =
      ⟨Except.error (PyErr.networkError
          ("Request failed after " ++ toString maxRetries ++ " attempts")
          (some (PyErr.unexpectedError tag))),
        n + 1, (List.range n).map (fun j => 2 ^ j)⟩ := by
  have hskip := requestGo_skip outcome ts maxRetries n 0 none [] (by omega)
    (fun j hj => by simpa using hpre j hj)
  rw [show HTTPClient.request maxRetries ts outcome =
      requestGo maxRetries ts outcome (maxRetries - 0) 0 none [] from rfl]
  rw [hskip]
  obtain ⟨k, hk⟩ : ∃ k, maxRetries - (0 + n) = k + 1 := ⟨maxRetries - (0 + n) - 1, by omega⟩
  rw [hk, requestGo_succ]
  simp only [Nat.zero_add, hu]
  have : finalRaise maxRetries (some (PyErr.unexpectedError tag)) =
      PyErr.networkError ("Request failed after " ++ toString maxRetries ++ " attempts")
        (some (PyErr.unexpectedError tag)) := rfl
  rw [this]
  refine congrArg₂ _ rfl ?_
  simp [failWaits_reverse]

theorem unexpected_breaks_loop_witness :
    HTTPClient.request 3 "30.0" unexpectedAfterTimeout =
      ⟨Except.error (PyErr.networkError
          ("Request failed after " ++ toString (3 : Nat) ++ " attempts")
          (some (PyErr.unexpectedError 9))),
        2, (List.range 1).map (fun j => 2 ^ j)⟩ :=
  unexpected_breaks_loop unexpectedAfterTimeout "30.0" 3 1 9 (by omega) (by decide) rfl

/-- C3 counterexample: a successfully received body `{"data": 42}` with no
`code` key does NOT make `_parse_response` return the `data` value — the
`json_data.get("code") != 200` test treats the absent key (`None`) as an
error, so an APIError with the default message "API returned error" and
default status 500 is raised instead. -/
theorem parse_response_no_code_counterexample :
    parse_response envelopeNoCode =
      Except.error (PyErr.apiError (Json.str "API returned error") (Json.int 500)
        (Json.obj [("data", Json.int 42)])) ∧
    parse_response envelopeNoCode ≠ Except.ok (Json.int 42) := by
  refine ⟨rfl, ?_⟩
  intro h
  rw [show parse_response envelopeNoCode =
      Except.error (PyErr.apiError (Json.str "API returned error") (Json.int 500)
        (Json.obj [("data", Json.int 42)])) from rfl] at h
  exact Except.noConfusion h

/-- C3 amended: for a successfully received (status < 400) JSON object body
containing a `data` key, the value of `data` is returned when `code` is
present and equal to 200; otherwise — `code` different from 200 OR `code`
absent — an APIError is raised whose message is `msg` (default "API
returned error") and whose status is `code` (default 500); a body with no
`data` key is returned unchanged. -/
theorem parse_response_envelope (r : HttpResponse) (fs : List (String × Json))
    (hst : r.status < 400) (hbody : r.body = some (Json.obj fs)) :
    (∀ d, jlookup fs "data" = some d →
      (jlookup fs "code" = some (Json.int 200) → parse_response r = Except.ok d) ∧
      (isInt200 (jlookup fs "code") = false →
        parse_response r = Except.error (PyErr.apiError
          ((jlookup fs "msg").getD (Json.str "API returned error"))
          ((jlookup fs "code").getD (Json.int 500)) (Json.obj fs)))) ∧
    (jlookup fs "data" = none → parse_response r = Except.ok (Json.obj fs)) := by
  have h429 : r.status ≠ 429 := by omega
  have h400 : ¬ 400 ≤ r.status := by omega
  constructor
  · intro d hd
    constructor
    · intro hcode
      rw [parse_response, if_neg h429, if_neg h400, hbody]
      simp only [hd, hcode]
      rw [if_pos]
      simp [isInt200]
    · intro hcode
      rw [parse_response, if_neg h429, if_neg h400, hbody]
      simp only [hd]
      rw [if_neg]
      simp [hcode]
  · intro hd
    rw [parse_response, if_neg h429, if_neg h400, hbody]
    simp only [hd]

theorem parse_response_envelope_witness :
    parse_response ⟨200, none, some (Json.obj [("code", Json.int 200), ("data", Json.int 5)])⟩ =
      Except.ok (Json.int 5) :=
  ((parse_response_envelope
      ⟨200, none, some (Json.obj [("code", Json.int 200), ("data", Json.int 5)])⟩
      [("code", Json.int 200), ("data", Json.int 5)] (by decide) rfl).1
    (Json.int 5) rfl).1 rfl

/-- C9: processing a `None` backend response and processing an empty-list
backend response for the single query "x" are equivalent — both yield
exactly one response with success `True`, no results, `credits_used = 0`,
`total_results = "0"` and query "x". -/
theorem process_null_eq_process_empty :
    process_search_response Json.null (QueryArg.str "x") =
      process_search_response (Json.arr []) (QueryArg.str "x") ∧
    process_search_response Json.null (QueryArg.str "x") =
      Except.ok (SearchOutcome.single ⟨true, "x", "0", "0", Results.organic [], 0⟩) :=
  ⟨rfl, rfl⟩

lemma process_core_shape (dl : List Json) :
    (∀ q out, process_search_core dl (QueryArg.str q) = Except.ok out →
      ∃ r, out = SearchOutcome.single r) ∧
    (∀ qs out, process_search_core dl (QueryArg.list qs) = Except.ok out →
      ∃ rs, out = SearchOutcome.batch rs) := by
  constructor
  · intro q out h
    rw [process_search_core] at h
    dsimp only at h
    repeat' split at h
    all_goals first
      | exact Except.noConfusion h
      | exact ⟨_, by injection h with h2; exact h2.symm⟩
  · intro qs out h
    rw [process_search_core] at h
    dsimp only at h
    repeat' split at h
    all_goals first
      | exact Except.noConfusion h
      | exact ⟨_, by injection h with h2; exact h2.symm⟩

/-- C2: the processed result echoes the shape of the original query — a
string query that processes successfully yields exactly one response
(never a sequence), and a list query yields a list of responses. -/
theorem process_shape_echo (data : Json) :
    (∀ q out, process_search_response data (QueryArg.str q) = Except.ok out →
      ∃ r, out = SearchOutcome.single r) ∧
    (∀ qs out, process_search_response data (QueryArg.list qs) = Except.ok out →
      ∃ rs, out = SearchOutcome.batch rs) := by
  constructor
  · intro q out h
    exact (process_core_shape (coerceToList data)).1 q out h
  · intro qs out h
    exact (process_core_shape (coerceToList data)).2 qs out h

theorem process_shape_echo_witness :
    (∃ r, SearchOutcome.single (emptySearchResponse "x") = SearchOutcome.single r) ∧
    (∃ rs, SearchOutcome.batch [emptySearchResponse "a", emptySearchResponse "b"] =
      SearchOutcome.batch rs) :=
  ⟨(process_shape_echo Json.null).1 "x" (SearchOutcome.single (emptySearchResponse "x")) rfl,
    (process_shape_echo Json.null).2 ["a", "b"]
      (SearchOutcome.batch [emptySearchResponse "a", emptySearchResponse "b"]) rfl⟩

lemma mapE_ok_of_forall {α β : Type} (f : α → Except PyErr β) :
    ∀ l : List α, (∀ a ∈ l, ∃ b, f a = Except.ok b) →
      ∃ bs, mapE f l = Except.ok bs := by
  intro l
  induction l with
  | nil => exact fun _ => ⟨[], rfl⟩
  | cons a l ih =>
    intro h
    obtain ⟨b, hb⟩ := h a (List.mem_cons_self a l)
    obtain ⟨bs, hbs⟩ := ih (fun x hx => h x (List.mem_cons_of_mem a hx))
    exact ⟨b :: bs, by simp only [mapE, hb, hbs]⟩

lemma mapE_ok_spec {α β : Type} (f : α → Except PyErr β) (d1 : α) (d2 : β) :
    ∀ (l : List α) (bs : List β), mapE f l = Except.ok bs →
      bs.length = l.length ∧
      ∀ i, i < l.length → f (l.getD i d1) = Except.ok (bs.getD i d2) := by
  intro l
  induction l with
  | nil =>
    intro bs h
    simp only [mapE] at h
    obtain rfl : bs = [] := by simpa using h.symm
    exact ⟨rfl, fun i hi => absurd hi (by simp)⟩
  | cons a l ih =>
    intro bs h
    simp only [mapE] at h
    cases hfa : f a with
    | error e => rw [hfa] at h; exact absurd h (by simp)
    | ok b =>
      rw [hfa] at h
      cases hml : mapE f l with
      | error e => rw [hml] at h; exact absurd h (by simp)
      | ok bs2 =>
        rw [hml] at h
        obtain rfl : bs = b :: bs2 := by simpa using h.symm
        obtain ⟨hlen, hidx⟩ := ih bs2 hml
        refine ⟨by simp [hlen], ?_⟩
        intro i hi
        cases i with
        | zero => simpa using hfa
        | succ i => simpa using hidx i (by simpa using hi)

lemma mapE_parse_null (qs : List String) :
    mapE (fun q => parse_search_response Json.null q) qs =
      Except.ok (qs.map emptySearchResponse) := by
  induction qs with
  | nil => rfl
  | cons q qs ih =>
    simp only [mapE, ih]
    simp only [parse_search_response]
    simp

lemma parseOk_iff (item : Json) (q : String) :
    parseOk item q = true ↔ ∃ r, parse_search_response item q = Except.ok r := by
  cases h : parse_search_response item q <;> simp [parseOk, h]

lemma process_core_batch (items : List Json) (qs : List String) (hne : items ≠ [])
    (hwf : ∀ i, i < items.length → i < qs.length →
      parseOk (items.getD i Json.null) (qs.getD i "") = true) :
    ∃ rs, process_search_core items (QueryArg.list qs) = Except.ok (SearchOutcome.batch rs) ∧
      rs.length = qs.length ∧
      (∀ i, i < items.length → i < qs.length →
        parse_search_response (items.getD i Json.null) (qs.getD i "") =
          Except.ok (rs.getD i (emptySearchResponse ""))) ∧
      (∀ i, items.length ≤ i → i < qs.length →
        rs.getD i (emptySearchResponse "") = emptySearchResponse (qs.getD i "")) := by
  have hne' : items.isEmpty = false := by
    cases items with
    | nil => exact absurd rfl hne
    | cons a l => rfl
  set pairs := items.zip (qs.take items.length) with hpairs
  have hplen : pairs.length = min items.length qs.length := by
    rw [hpairs, List.length_zip, List.length_take]
    omega
  have hpget : ∀ i, i < pairs.length →
      pairs.getD i (Json.null, "") = (items.getD i Json.null, qs.getD i "") := by
    intro i hi
    have hii : i < items.length := by omega
    have hiq : i < qs.length := by omega
    rw [List.getD_eq_getElem _ _ hi]
    rw [List.getD_eq_getElem items Json.null hii, List.getD_eq_getElem qs "" hiq]
    simp only [hpairs, List.getElem_zip, List.getElem_take]
  have hex : ∀ p ∈ pairs, ∃ b, parse_search_response p.1 p.2 = Except.ok b := by
    intro p hp
    obtain ⟨i, hi, hpi⟩ := List.mem_iff_getElem.mp hp
    have hgd : pairs.getD i (Json.null, "") = p := by
      rw [List.getD_eq_getElem _ _ hi, hpi]
    have hpe : p = (items.getD i Json.null, qs.getD i "") := by
      rw [← hgd, hpget i hi]
    rw [hpe]
    exact (parseOk_iff _ _).mp (hwf i (by omega) (by omega))
  obtain ⟨responses, hresp⟩ := mapE_ok_of_forall _ pairs hex
  obtain ⟨hrlen, hridx⟩ :=
    mapE_ok_spec (fun p => parse_search_response p.1 p.2) (Json.null, "")
      (emptySearchResponse "") pairs responses hresp
  have hri : ∀ i, i < items.length → i < qs.length →
      parse_search_response (items.getD i Json.null) (qs.getD i "") =
        Except.ok (responses.getD i (emptySearchResponse "")) := by
    intro i h1 h2
    have hip : i < pairs.length := by omega
    have hx := hridx i hip
    rw [hpget i hip] at hx
    exact hx
  by_cases hlen : responses.length < qs.length
  · refine ⟨responses ++ (qs.drop responses.length).map emptySearchResponse, ?_, ?_, ?_, ?_⟩
    · rw [process_search_core]
      simp only [hne', Bool.false_eq_true, if_false, ← hpairs, hresp, mapE_parse_null,
        hlen, if_true]
    · simp only [List.length_append, List.length_map, List.length_drop]
      omega
    · intro i h1 h2
      rw [List.getD_append _ _ _ _ (by omega)]
      exact hri i h1 h2
    · intro i hge hlt
      rw [List.getD_append_right _ _ _ _ (by omega)]
      have hb : i - responses.length < ((qs.drop responses.length).map emptySearchResponse).length := by
        simp only [List.length_map, List.length_drop]
        omega
      rw [List.getD_eq_getElem _ _ hb]
      simp only [List.getElem_map, List.getElem_drop]
      rw [List.getD_eq_getElem qs "" hlt]
      have e : responses.length + (i - responses.length) = i := by omega
      simp [e]
  · refine ⟨responses, ?_, ?_, ?_, ?_⟩
    · rw [process_search_core]
      simp only [hne', Bool.false_eq_true, if_false, ← hpairs, hresp, hlen]
    · omega
    · intro i h1 h2
      exact hri i h1 h2
    · intro i hge hlt
      omega

/-- C1: a batch of N queries (1 ≤ N ≤ 100) processed against any backend
response — `null`, a scalar object, or a list with fewer, exactly or more
items than N — whose items validate, yields exactly N responses; the i-th
response is the parse of the i-th backend item paired with the i-th query
(same order as the input), and every entry with no corresponding backend
item is the empty zero-credit response echoing the corresponding query. -/
theorem batch_always_n_responses (qs : List String) (data : Json)
    (hq1 : 1 ≤ qs.length) (hq100 : qs.length ≤ 100)
    (hwf : ∀ i, i < (coerceToList data).length → i < qs.length →
      parseOk ((coerceToList data).getD i Json.null) (qs.getD i "") = true) :
    ∃ rs, process_search_response data (QueryArg.list qs) =
        Except.ok (SearchOutcome.batch rs) ∧
      rs.length = qs.length ∧
      (∀ i, i < (backendItems data).length → i < qs.length →
        parse_search_response ((backendItems data).getD i Json.null) (qs.getD i "") =
          Except.ok (rs.getD i (emptySearchResponse ""))) ∧
      (∀ i, (backendItems data).length ≤ i → i < qs.length →
        rs.getD i (emptySearchResponse "") = emptySearchResponse (qs.getD i "")) := by
  cases data with
  | null =>
    obtain ⟨rs, heq, hlen, hp1, hp2⟩ := process_core_batch [Json.null] qs (by simp) hwf
    refine ⟨rs, heq, hlen, ?_, ?_⟩
    · intro i h1i h2i
      simp [backendItems] at h1i
    · intro i hge hlt
      rcases Nat.eq_zero_or_pos i with rfl | hpos
      · have hx := hp1 0 (by simp) (by omega)
        have h2 : parse_search_response ([Json.null].getD 0 Json.null) (qs.getD 0 "") =
            Except.ok (emptySearchResponse (qs.getD 0 "")) := rfl
        have h3 := h2.symm.trans hx
        injection h3 with h4
        exact h4.symm
      · exact hp2 i (by simpa using hpos) hlt
  | arr xs =>
    cases xs with
    | nil =>
      refine ⟨qs.map emptySearchResponse, ?_, by simp, ?_, ?_⟩
      · simp [process_search_response, process_search_core, coerceToList, mapE_parse_null]
      · intro i h1i h2i
        simp [backendItems] at h1i
      · intro i hge hlt
        rw [List.getD_eq_getElem _ _ (by simpa using hlt), List.getElem_map,
          List.getD_eq_getElem qs "" hlt]
    | cons x tl =>
      obtain ⟨rs, heq, hlen, hp1, hp2⟩ := process_core_batch (x :: tl) qs (by simp) hwf
      exact ⟨rs, heq, hlen, hp1, hp2⟩
  | str s =>
    obtain ⟨rs, heq, hlen, hp1, hp2⟩ := process_core_batch [Json.str s] qs (by simp) hwf
    exact ⟨rs, heq, hlen, hp1, hp2⟩
  | int n =>
    obtain ⟨rs, heq, hlen, hp1, hp2⟩ := process_core_batch [Json.int n] qs (by simp) hwf
    exact ⟨rs, heq, hlen, hp1, hp2⟩
  | bool b =>
    obtain ⟨rs, heq, hlen, hp1, hp2⟩ := process_core_batch [Json.bool b] qs (by simp) hwf
    exact ⟨rs, heq, hlen, hp1, hp2⟩
  | obj fs =>
    obtain ⟨rs, heq, hlen, hp1, hp2⟩ := process_core_batch [Json.obj fs] qs (by simp) hwf
    exact ⟨rs, heq, hlen, hp1, hp2⟩

theorem batch_always_n_responses_witness :
    ∃ rs, process_search_response batchWitnessData (QueryArg.list ["a", "b", "c"]) =
        Except.ok (SearchOutcome.batch rs) ∧
      rs.length = ["a", "b", "c"].length ∧
      (∀ i, i < (backendItems batchWitnessData).length → i < ["a", "b", "c"].length →
        parse_search_response ((backendItems batchWitnessData).getD i Json.null)
            (["a", "b", "c"].getD i "") =
          Except.ok (rs.getD i (emptySearchResponse ""))) ∧
      (∀ i, (backendItems batchWitnessData).length ≤ i → i < ["a", "b", "c"].length →
        rs.getD i (emptySearchResponse "") = emptySearchResponse (["a", "b", "c"].getD i "")) :=
  batch_always_n_responses ["a", "b", "c"] batchWitnessData (by decide) (by decide) (by decide)

lemma asStr_getD_str (fs : List (String × Json)) (k : String) (v : String)
    (h : asStr ((jlookup fs k).getD (Json.str "")) = some v) :
    jStrD (Json.obj fs) k = v := by
  rw [jStrD]
  simp only [Json.get]
  cases hl : jlookup fs k with
  | none =>
    rw [hl] at h
    simp [asStr] at h
    simp [h]
  | some x =>
    rw [hl] at h
    cases x <;> simp_all [asStr]

lemma asInt_getD_int (fs : List (String × Json)) (k : String) (v : Int)
    (h : asInt ((jlookup fs k).getD (Json.int 0)) = some v) :
    jIntD (Json.obj fs) k = v := by
  rw [jIntD]
  simp only [Json.get]
  cases hl : jlookup fs k with
  | none =>
    rw [hl] at h
    simp [asInt] at h
    simp [h]
  | some x =>
    rw [hl] at h
    cases x <;> simp_all [asInt]

lemma mapO_some_spec {α β : Type} (f : α → Option β) (d1 : α) (d2 : β) :
    ∀ (l : List α) (bs : List β), mapO f l = some bs →
      bs.length = l.length ∧
      ∀ i, i < l.length → f (l.getD i d1) = some (bs.getD i d2) := by
  intro l
  induction l with
  | nil =>
    intro bs h
    simp only [mapO] at h
    obtain rfl : bs = [] := by simpa using h.symm
    exact ⟨rfl, fun i hi => absurd hi (by simp)⟩
  | cons a l ih =>
    intro bs h
    simp only [mapO] at h
    cases hfa : f a with
    | none => rw [hfa] at h; exact absurd h (by simp)
    | some b =>
      rw [hfa] at h
      cases hml : mapO f l with
      | none => rw [hml] at h; exact absurd h (by simp)
      | some bs2 =>
        rw [hml] at h
        obtain rfl : bs = b :: bs2 := by simpa using h.symm
        obtain ⟨hlen, hidx⟩ := ih bs2 hml
        refine ⟨by simp [hlen], ?_⟩
        intro i hi
        cases i with
        | zero => simpa using hfa
        | succ i => simpa using hidx i (by simpa using hi)

lemma mapO_none_of_mem {α β : Type} (f : α → Option β) :
    ∀ (l : List α) (a : α), a ∈ l → f a = none → mapO f l = none := by
  intro l
  induction l with
  | nil => intro a ha; cases ha
  | cons x xs ih =>
    intro a ha hfa
    rcases List.mem_cons.mp ha with rfl | hmem
    · simp [mapO, hfa]
    · rw [mapO]
      cases hfx : f x with
      | none => rfl
      | some b => rw [ih a hmem hfa]

/-- A remapped image item never validates as an organic `SearchResult`:
the transform emits no `snippet` key. -/
lemma validate_search_result_transform (item t : Json)
    (ht : transform_image_result item = Except.ok t) :
    validate_search_result t = none := by
  cases item with
  | obj fs =>
    rw [transform_image_result] at ht
    injection ht with ht2
    subst ht2
    have hsnip : jgetStr (Json.obj
        [("title", (jlookup fs "title").getD (Json.str "")),
         ("link", (jlookup fs "imageUrl").getD (Json.str "")),
         ("thumbnail", (jlookup fs "thumbnailUrl").getD (Json.str "")),
         ("source", (jlookup fs "source").getD (Json.str "")),
         ("source_link", (jlookup fs "link").getD (Json.str "")),
         ("width", (jlookup fs "imageWidth").getD (Json.int 0)),
         ("height", (jlookup fs "imageHeight").getD (Json.int 0)),
         ("position", (jlookup fs "position").getD (Json.int 0))]) "snippet" = none := by
      simp [jgetStr, Json.get, jlookup]
    rw [validate_search_result]
    cases h1 : jgetStr _ "title" <;> cases h2 : jgetStr _ "link" <;>
      simp [h1, h2, hsnip]
  | null => exact absurd ht (by simp [transform_image_result])
  | str s => exact absurd ht (by simp [transform_image_result])
  | int n => exact absurd ht (by simp [transform_image_result])
  | bool b => exact absurd ht (by simp [transform_image_result])
  | arr xs => exact absurd ht (by simp [transform_image_result])

/-- Field correspondence for one remapped-then-validated image item:
`link` comes from the backend's `imageUrl`, `source_link` from the
backend's `link`, `thumbnail` from `thumbnailUrl`, `width`/`height` from
`imageWidth`/`imageHeight`, with ""/0 defaults for missing fields. -/
lemma transform_validate_fields (item t : Json) (r : ImageResult)
    (ht : transform_image_result item = Except.ok t)
    (hv : validate_image_result t = some r) :
    r.title = jStrD item "title" ∧ r.link = jStrD item "imageUrl" ∧
    r.thumbnail = jStrD item "thumbnailUrl" ∧ r.source = jStrD item "source" ∧
    r.source_link = jStrD item "link" ∧ r.width = jIntD item "imageWidth" ∧
    r.height = jIntD item "imageHeight" ∧ r.position = jIntD item "position" := by
  cases item with
  | null => exact absurd ht (by simp [transform_image_result])
  | str s => exact absurd ht (by simp [transform_image_result])
  | int n => exact absurd ht (by simp [transform_image_result])
  | bool b => exact absurd ht (by simp [transform_image_result])
  | arr xs => exact absurd ht (by simp [transform_image_result])
  | obj fs =>
    rw [transform_image_result] at ht
    injection ht with ht2
    subst ht2
    rw [validate_image_result] at hv
    simp [jgetStr, jgetInt, Json.get, jlookup] at hv
    cases h1 : asStr ((jlookup fs "title").getD (Json.str "")) with
    | none => rw [h1] at hv; simp at hv
    | some v1 =>
    rw [h1] at hv
    cases h2 : asStr ((jlookup fs "imageUrl").getD (Json.str "")) with
    | none => rw [h2] at hv; simp at hv
    | some v2 =>
    rw [h2] at hv
    cases h3 : asStr ((jlookup fs "thumbnailUrl").getD (Json.str "")) with
    | none => rw [h3] at hv; simp at hv
    | some v3 =>
    rw [h3] at hv
    cases h4 : asStr ((jlookup fs "source").getD (Json.str "")) with
    | none => rw [h4] at hv; simp at hv
    | some v4 =>
    rw [h4] at hv
    cases h5 : asStr ((jlookup fs "link").getD (Json.str "")) with
    | none => rw [h5] at hv; simp at hv
    | some v5 =>
    rw [h5] at hv
    cases h6 : asInt ((jlookup fs "imageWidth").getD (Json.int 0)) with
    | none => rw [h6] at hv; simp at hv
    | some v6 =>
    rw [h6] at hv
    cases h7 : asInt ((jlookup fs "imageHeight").getD (Json.int 0)) with
    | none => rw [h7] at hv; simp at hv
    | some v7 =>
    rw [h7] at hv
    cases h8 : asInt ((jlookup fs "position").getD (Json.int 0)) with
    | none => rw [h8] at hv; simp at hv
    | some v8 =>
    rw [h8] at hv
    simp only [Option.some.injEq] at hv
    subst hv
    exact ⟨(asStr_getD_str fs "title" v1 h1).symm,
      (asStr_getD_str fs "imageUrl" v2 h2).symm,
      (asStr_getD_str fs "thumbnailUrl" v3 h3).symm,
      (asStr_getD_str fs "source" v4 h4).symm,
      (asStr_getD_str fs "link" v5 h5).symm,
      (asInt_getD_int fs "imageWidth" v6 h6).symm,
      (asInt_getD_int fs "imageHeight" v7 h7).symm,
      (asInt_getD_int fs "position" v8 h8).symm⟩

/-- C7: for a payload whose `search_params.type` is "image", every
normalized result takes `link` from the backend item's `imageUrl` and
`source_link` from the backend item's `link` (never the reverse),
`thumbnail` from `thumbnailUrl`, `width`/`height` from
`imageWidth`/`imageHeight`, with missing backend fields defaulting to the
empty string / 0. -/
theorem image_result_remap (fs : List (String × Json)) (q : String)
    (resp : SearchResponse) (items : List Json)
    (htype : Json.getD (dictGetOr (Json.obj fs) "search_params" (Json.obj []))
        "type" (Json.str "search") = Json.str "image")
    (hres : dictGetOr (Json.obj fs) "results" (Json.arr []) = Json.arr items)
    (hne : items ≠ [])
    (hok : parse_search_response (Json.obj fs) q = Except.ok resp) :
    ∃ irs, resp.results = Results.image irs ∧ irs.length = items.length ∧
      ∀ i, i < items.length →
        (irs.getD i imgDefault).title = jStrD (items.getD i Json.null) "title" ∧
        (irs.getD i imgDefault).link = jStrD (items.getD i Json.null) "imageUrl" ∧
        (irs.getD i imgDefault).thumbnail = jStrD (items.getD i Json.null) "thumbnailUrl" ∧
        (irs.getD i imgDefault).source = jStrD (items.getD i Json.null) "source" ∧
        (irs.getD i imgDefault).source_link = jStrD (items.getD i Json.null) "link" ∧
        (irs.getD i imgDefault).width = jIntD (items.getD i Json.null) "imageWidth" ∧
        (irs.getD i imgDefault).height = jIntD (items.getD i Json.null) "imageHeight" ∧
        (irs.getD i imgDefault).position = jIntD (items.getD i Json.null) "position" := by
  cases hsp : dictGetOr (Json.obj fs) "search_params" (Json.obj []) with
  | null => rw [hsp] at htype; simp [Json.getD, Json.get] at htype
  | str s => rw [hsp] at htype; simp [Json.getD, Json.get] at htype
  | int n => rw [hsp] at htype; simp [Json.getD, Json.get] at htype
  | bool b => rw [hsp] at htype; simp [Json.getD, Json.get] at htype
  | arr xs => rw [hsp] at htype; simp [Json.getD, Json.get] at htype
  | obj g =>
  rw [show parse_search_response (Json.obj fs) q = parse_search_payload (Json.obj fs) q
      from rfl, parse_search_payload] at hok
  simp only [Json.isObj, if_true] at hok
  rw [hsp] at hok
  have htype2 : (jlookup g "type").getD (Json.str "search") = Json.str "image" := by
    rw [hsp] at htype
    exact htype
  rw [show pyDictGet (Json.obj g) "type" (Json.str "search") =
      Except.ok ((jlookup g "type").getD (Json.str "search")) from rfl, htype2] at hok
  rw [hres] at hok
  try simp only [if_true] at hok
  cases hm : mapE transform_image_result items with
  | error e => rw [hm] at hok; simp at hok
  | ok ts =>
  rw [hm] at hok
  try simp only [if_true] at hok
  obtain ⟨htlen, htidx⟩ := mapE_ok_spec transform_image_result Json.null Json.null items ts hm
  rw [show pyDictGet (Json.obj g) "q" (Json.str q) =
      Except.ok ((jlookup g "q").getD (Json.str q)) from rfl] at hok
  try simp only [if_true] at hok
  cases hsi : dictGetOr (Json.obj fs) "search_info" (Json.obj []) with
  | null => rw [hsi] at hok; simp [pyDictGet] at hok
  | str s => rw [hsi] at hok; simp [pyDictGet] at hok
  | int n => rw [hsi] at hok; simp [pyDictGet] at hok
  | bool b => rw [hsi] at hok; simp [pyDictGet] at hok
  | arr xs => rw [hsi] at hok; simp [pyDictGet] at hok
  | obj si =>
  rw [hsi] at hok
  rw [show pyDictGet (Json.obj si) "total_results" (Json.str "0") =
      Except.ok ((jlookup si "total_results").getD (Json.str "0")) from rfl] at hok
  try simp only [if_true] at hok
  rw [show pyDictGet (Json.obj si) "search_time" (Json.str "0") =
      Except.ok ((jlookup si "search_time").getD (Json.str "0")) from rfl] at hok
  try simp only [if_true] at hok
  rw [model_validate] at hok
  cases hA : asStr ((jlookup g "q").getD (Json.str q)) with
  | none => rw [hA] at hok; simp at hok
  | some qv =>
  rw [hA] at hok
  cases hB : asStr ((jlookup si "total_results").getD (Json.str "0")) with
  | none => rw [hB] at hok; simp at hok
  | some trv =>
  rw [hB] at hok
  cases hC : asStr ((jlookup si "search_time").getD (Json.str "0")) with
  | none => rw [hC] at hok; simp at hok
  | some stv =>
  rw [hC] at hok
  cases hV : validate_results (Json.arr ts) with
  | none => rw [hV] at hok; simp at hok
  | some rs =>
  rw [hV] at hok
  cases hD : asInt (dictGetOr (Json.obj fs) "credits" (Json.int 0)) with
  | none => rw [hD] at hok; simp at hok
  | some cv =>
  rw [hD] at hok
  have hresp : resp = ⟨true, qv, trv, stv, rs, cv⟩ := by
    injection hok with h
    exact h.symm
  have h0i : 0 < items.length := by
    cases items with
    | nil => exact absurd rfl hne
    | cons x tl => simp
  have h0t : 0 < ts.length := by omega
  rw [validate_results] at hV
  have hnone : mapO validate_search_result ts = none := by
    apply mapO_none_of_mem validate_search_result ts (ts.getD 0 Json.null)
    · rw [List.getD_eq_getElem _ _ h0t]
      exact List.getElem_mem ..
    · exact validate_search_result_transform (items.getD 0 Json.null) _ (htidx 0 h0i)
  rw [hnone] at hV
  cases hmi : mapO validate_image_result ts with
  | none => rw [hmi] at hV; simp at hV
  | some irs =>
  rw [hmi] at hV
  simp only [Option.some.injEq] at hV
  obtain ⟨hilen, hiidx⟩ := mapO_some_spec validate_image_result Json.null imgDefault ts irs hmi
  refine ⟨irs, ?_, by omega, ?_⟩
  · rw [hresp, ← hV]
  · intro i hi
    exact transform_validate_fields (items.getD i Json.null) (ts.getD i Json.null)
      (irs.getD i imgDefault) (htidx i hi) (hiidx i (by omega))

theorem image_result_remap_witness :
    ∃ irs, imageWitnessResp.results = Results.image irs ∧
      irs.length = [imageWitnessItem].length ∧
      ∀ i, i < [imageWitnessItem].length →
        (irs.getD i imgDefault).title = jStrD ([imageWitnessItem].getD i Json.null) "title" ∧
        (irs.getD i imgDefault).link = jStrD ([imageWitnessItem].getD i Json.null) "imageUrl" ∧
        (irs.getD i imgDefault).thumbnail =
          jStrD ([imageWitnessItem].getD i Json.null) "thumbnailUrl" ∧
        (irs.getD i imgDefault).source = jStrD ([imageWitnessItem].getD i Json.null) "source" ∧
        (irs.getD i imgDefault).source_link =
          jStrD ([imageWitnessItem].getD i Json.null) "link" ∧
        (irs.getD i imgDefault).width =
          jIntD ([imageWitnessItem].getD i Json.null) "imageWidth" ∧
        (irs.getD i imgDefault).height =
          jIntD ([imageWitnessItem].getD i Json.null) "imageHeight" ∧
        (irs.getD i imgDefault).position =
          jIntD ([imageWitnessItem].getD i Json.null) "position" :=
  image_result_remap imageWitnessFields "q0" imageWitnessResp [imageWitnessItem]
    rfl rfl (by simp) rfl

set_option maxHeartbeats 2000000 in
lemma locationTypeOf_value (s : String) (l : LocationType)
    (h : locationTypeOf s = some l) : l.value = s := by
  rw [locationTypeOf] at h
  repeat' split at h
  all_goals first
    | exact Option.noConfusion h
    | (injection h with h2; subst h2; simp_all [LocationType.value])

/-- C8: location normalization of an arbitrary string never raises — it is
a total function: a string whose uppercasing matches a known code is
canonicalized to that enum member (whose value is the uppercased code),
and any other string is passed through uppercased; in particular the
unknown code "ZZ" comes back as the literal string "ZZ". -/
theorem validate_location_total (s : String) :
    (∀ l, locationTypeOf (pyUpper s) = some l →
      validate_location (LocationInput.str s) = LocationValue.enum l ∧
        l.value = pyUpper s) ∧
    (locationTypeOf (pyUpper s) = none →
      validate_location (LocationInput.str s) = LocationValue.str (pyUpper s)) ∧
    validate_location (LocationInput.str "ZZ") = LocationValue.str "ZZ" := by
  refine ⟨?_, ?_, by decide⟩
  · intro l h
    exact ⟨by rw [validate_location, h], locationTypeOf_value _ _ h⟩
  · intro h
    rw [validate_location, h]

theorem validate_location_total_witness :
    (validate_location (LocationInput.str "us") = LocationValue.enum LocationType.US ∧
      LocationType.US.value = pyUpper "us") ∧
    validate_location (LocationInput.str "zz") = LocationValue.str (pyUpper "zz") :=
  ⟨(validate_location_total "us").1 LocationType.US (by decide),
    (validate_location_total "zz").2.1 (by decide)⟩

/-- C10: an empty-string `api_key` argument behaves exactly like an omitted
one — the key resolves from the environment variable when that is set and
non-empty, and the ValueError is raised only when both are missing or
empty. -/
theorem empty_api_key_like_omitted (envValue : Option String) :
    get_api_key (some "") envValue = get_api_key none envValue ∧
    (∀ v, envValue = some v → v ≠ "" →
      get_api_key (some "") envValue = Except.ok v) ∧
    (envValue = none ∨ envValue = some "" →
      get_api_key (some "") envValue = Except.error (PyErr.valueError apiKeyErrorMsg)) := by
  refine ⟨rfl, ?_, ?_⟩
  · intro v hv hne
    subst hv
    have h1 : v.isEmpty = false := by
      rw [Bool.eq_false_iff]
      intro hx
      exact hne ((String.isEmpty_iff v).mp hx)
    rw [get_api_key, if_neg (by decide), if_pos (by simp [optTruthy, h1])]
    rfl
  · rintro (rfl | rfl) <;> rfl

theorem empty_api_key_like_omitted_witness :
    get_api_key (some "") (some "k-1234567890") = Except.ok "k-1234567890" ∧
    get_api_key (some "") none = Except.error (PyErr.valueError apiKeyErrorMsg) :=
  ⟨(empty_api_key_like_omitted (some "k-1234567890")).2.1 "k-1234567890" rfl (by decide),
    (empty_api_key_like_omitted none).2.2 (Or.inl rfl)⟩
